import Mathlib

/-!
Verification development for the rss-miner feed-discovery pipeline
(src/src/lib.rs and src/src/main.rs).

Shallow embedding notes:
* HTTP traffic is abstracted: the feed validator's network fetch becomes an
  explicit `FetchOutcome` value, and inside the page discoverer the whole
  validator (network + parsers) becomes an oracle `String → Option FeedType`.
* HTML parsing (the `scraper` crate) is abstracted: the markup scan receives
  the list of matching `<link>` elements (href/title attributes) as input.
* The `url` crate is modelled for http/https URLs (`parseUrl`, `joinUrl`):
  scheme + host + path, with the crate's normalization of an empty path
  to "/" on serialization, absolute hrefs re-parsed, protocol-relative
  hrefs adopting the base scheme, path-absolute hrefs replacing the base
  path, and path-relative hrefs replacing the last base path segment.
* The RSS / Atom body parsers (`rss`, `atom_syndication`) are abstracted as
  boolean oracles on the body text.
* File IO is dropped: the serializers return the document (title, outlines)
  that the source would render and write.
-/

namespace RssMiner

/-- Embeds `FeedType` (src/src/lib.rs lines 18-22): the two supported feed
formats. -/
inductive FeedType where
  | Rss : FeedType
  | Atom : FeedType
deriving DecidableEq, Repr

/-- Embeds `RssFeed` (src/src/lib.rs lines 10-16): a discovered, validated
feed. -/
structure RssFeed where
  title : String
  url : String
  html_url : String
  feed_type : FeedType
deriving DecidableEq, Repr

/-! ## URL model (the `url` crate, restricted to http/https)

String scanning is done over `List Char` (structural recursion) so that
every definition evaluates by kernel reduction. -/

/-- Boolean string-prefix test over the underlying character lists. -/
def isPre (p s : String) : Bool :=
  p.toList.isPrefixOf s.toList

/-- A parsed URL in the model: scheme, host, and path (the path always
starts with "/" after parsing, mirroring the crate's normalization). -/
structure ModelUrl where
  scheme : String
  host : String
  path : String
deriving DecidableEq, Repr

/-- Parse attempt for one scheme: succeeds when `s` starts with
`sch ++ "://"` and has a nonempty host; the path is everything from the
first "/" after the host, or "/" when absent. -/
def trySchemeParse (sch s : String) : Option ModelUrl :=
  let pre := (sch ++ "://").toList
  let cs := s.toList
  if pre.isPrefixOf cs then
    let rest := cs.drop pre.length
    let host := rest.takeWhile (fun c => c ≠ '/')
    let path := rest.dropWhile (fun c => c ≠ '/')
    if host.isEmpty then none
    else some { scheme := sch, host := String.mk host,
                path := if path.isEmpty then "/" else String.mk path }
  else none

/-- Models `url::Url::parse` for http/https URLs; other inputs (such as
"not-a-url", which the crate rejects as a relative URL without a base)
yield `none`. -/
def parseUrl (s : String) : Option ModelUrl :=
  match trySchemeParse "https" s with
  | some u => some u
  | none => trySchemeParse "http" s

/-- Models `url::Url::to_string` for the modelled subset. -/
def urlToString (u : ModelUrl) : String :=
  u.scheme ++ "://" ++ u.host ++ u.path

/-- Helper for path-relative joins: keep the base path up to and including
its last "/" (the directory of the base path); works on the reversed
character list. -/
def dropLastSegmentAux : List Char → List Char
  | [] => []
  | c :: rest => if c = '/' then c :: rest else dropLastSegmentAux rest

/-- The directory part of a path: everything up to and including the last
"/". -/
def dropLastSegment (p : String) : String :=
  String.mk (dropLastSegmentAux p.toList.reverse).reverse

/-- Models `url::Url::join` on the modelled subset: an absolute href is
re-parsed; a protocol-relative href adopts the base scheme; a
path-absolute href replaces the base path; an empty href keeps the base;
a path-relative href replaces the last segment of the base path. -/
def joinUrl (base : ModelUrl) (href : String) : Option ModelUrl :=
  if isPre "https://" href || isPre "http://" href then
    parseUrl href
  else if isPre "//" href then
    parseUrl (base.scheme ++ ":" ++ href)
  else if isPre "/" href then
    some { base with path := href }
  else if href.toList.isEmpty then
    some base
  else
    some { base with path := dropLastSegment base.path ++ href }

/-- Embeds `resolve_url` (src/src/lib.rs lines 134-138): parse the base,
join the href, serialize; any failure is an error (the source's
`Result<String>`). -/
def resolve_url (base href : String) : Except Unit String :=
  match parseUrl base with
  | none => Except.error ()
  | some b =>
    match joinUrl b href with
    | none => Except.error ()
    | some r => Except.ok (urlToString r)

/-- Embeds `extract_title_from_url` (src/src/lib.rs lines 169-174): the
host of the parsed URL, or "Unknown" when parsing fails (in the model a
successful parse always has a host). -/
def extract_title_from_url (url : String) : String :=
  match parseUrl url with
  | some u => u.host
  | none => "Unknown"

/-! ## Feed validator -/

/-- The outcome of the validator's HTTP GET, made explicit: a
network-level failure (connection error, timeout, DNS failure), or a
response with a success flag (`status().is_success()`, i.e. 2xx) and a
body that either read as text or failed to read. -/
inductive FetchOutcome where
  | netErr : FetchOutcome
  | response (statusSuccess : Bool) (body : Option String) : FetchOutcome

/-- Embeds `validate_rss_feed` (src/src/lib.rs lines 140-167) over an
explicit fetch outcome, with the RSS and Atom body parsers
(`rss::Channel::read_from`, `atom_syndication::Feed::read_from`)
abstracted as boolean acceptance oracles. -/
def validate_rss_feed (rssParses atomParses : String → Bool)
    (fetch : FetchOutcome) : Option FeedType :=
  match fetch with
  | FetchOutcome.netErr => none
  | FetchOutcome.response statusSuccess body =>
    if !statusSuccess then none
    else
      match body with
      | none => none
      | some content =>
        if rssParses content then some FeedType.Rss
        else if atomParses content then some FeedType.Atom
        else none

/-! ## Page feed discoverer

The page fetch and the HTML scan (`scraper`) are abstracted: the markup
phase receives the list of `<link>` elements matched by the selector,
each with its optional `href` and `title` attributes, and the composite
validator (network fetch + parsing) is an oracle `String → Option
FeedType`. -/

/-- A `<link>` element matched by the feed selector, with its optional
`href` and `title` attributes. -/
structure LinkElement where
  href : Option String
  title : Option String

/-- The feed built in the markup loop (src/src/lib.rs lines 56-68). -/
def mkMarkupFeed (url feed_url : String) (t : Option String)
    (ft : FeedType) : RssFeed :=
  { title := t.getD "Untitled Feed", url := feed_url,
    html_url := url, feed_type := ft }

/-- Embeds the markup scan loop of `find_rss_feeds` (src/src/lib.rs lines
51-71). An element without `href` is skipped; for an element with `href`,
`resolve_url(url, href)?` propagates a resolve failure, aborting the
whole call (the source's `?` operator); a validated candidate is pushed,
a rejected one is skipped. -/
def markupFeeds (url : String) (validate : String → Option FeedType) :
    List LinkElement → Except Unit (List RssFeed)
  | [] => Except.ok []
  | e :: rest =>
    match e.href with
    | none => markupFeeds url validate rest
    | some href =>
      match resolve_url url href with
      | Except.error er => Except.error er
      | Except.ok feed_url =>
        match validate feed_url with
        | some ft =>
          match markupFeeds url validate rest with
          | Except.error er => Except.error er
          | Except.ok feeds =>
            Except.ok (mkMarkupFeed url feed_url e.title ft :: feeds)
        | none => markupFeeds url validate rest

/-- The fixed fallback path list (src/src/lib.rs lines 75-82). -/
def common_paths : List String :=
  ["/feed", "/rss", "/feed.xml", "/rss.xml", "/atom.xml", "/index.xml"]

/-- The feed built by the path-probing fallback (src/src/lib.rs lines
87-92). -/
def mkFallbackFeed (url feed_url : String) (ft : FeedType) : RssFeed :=
  { title := extract_title_from_url url, url := feed_url,
    html_url := url, feed_type := ft }

/-- Embeds the fallback loop of `find_rss_feeds` (src/src/lib.rs lines
84-96): paths whose resolution fails are skipped (`if let Ok`), the first
path whose resolved URL validates yields one feed and the loop breaks. -/
def fallbackFeeds (url : String) (validate : String → Option FeedType) :
    List String → List RssFeed
  | [] => []
  | p :: rest =>
    match resolve_url url p with
    | Except.error _ => fallbackFeeds url validate rest
    | Except.ok feed_url =>
      match validate feed_url with
      | some ft => [mkFallbackFeed url feed_url ft]
      | none => fallbackFeeds url validate rest

/-- Embeds `find_rss_feeds` (src/src/lib.rs lines 38-100) after the page
fetch: scan the markup candidates, and when that produced no feeds probe
the common paths. A page-fetch failure is represented at the caller
(`find_rss_feeds_parallel`) as an erroring discover function. -/
def find_rss_feeds (url : String) (validate : String → Option FeedType)
    (links : List LinkElement) : Except Unit (List RssFeed) :=
  match markupFeeds url validate links with
  | Except.error er => Except.error er
  | Except.ok feeds =>
    if feeds.isEmpty then Except.ok (fallbackFeeds url validate common_paths)
    else Except.ok feeds

/-! ## Parallel discovery orchestrator -/

/-- Embeds `find_rss_feeds_parallel` (src/src/lib.rs lines 102-132) with
the per-page discovery abstracted as `discover`. Rayon's indexed
`par_iter().filter_map(..).flatten().collect()` produces the same list as
the sequential `filter_map` + `join`; the `verbose` flag only drives
printing in the source and is ignored here. -/
def find_rss_feeds_parallel (discover : String → Except Unit (List RssFeed))
    (urls : List String) (verbose : Bool) : List RssFeed :=
  (urls.filterMap (fun url =>
    match discover url with
    | Except.ok feeds => if feeds.isEmpty then none else some feeds
    | Except.error _ => none)).flatten

/-! ## Subscription serializers -/

/-- One OPML `<outline>` element as built by both serializers. -/
structure Outline where
  text : String
  otype : String
  xml_url : String
  html_url : String
deriving DecidableEq, Repr

/-- The `type` attribute string (src/src/lib.rs lines 216-219). -/
def feedTypeStr : FeedType → String
  | FeedType.Rss => "rss"
  | FeedType.Atom => "atom"

/-- The outline built from a feed (src/src/lib.rs lines 221-227; the Rust
field `r#type` is `otype` here). -/
def mkOutline (f : RssFeed) : Outline :=
  { text := f.title, otype := feedTypeStr f.feed_type,
    xml_url := f.url, html_url := f.html_url }

/-- The document-level title (src/src/lib.rs lines 187-191). -/
def filterTitle : Option FeedType → String
  | some FeedType.Rss => "RSS Feeds"
  | some FeedType.Atom => "Atom Feeds"
  | none => "RSS Feeds"

/-- The filter match of src/src/lib.rs lines 203-208: pass when no filter
is set or when filter and feed type coincide. -/
def matchesFilter : Option FeedType → FeedType → Bool
  | none, _ => true
  | some FeedType.Rss, FeedType.Rss => true
  | some FeedType.Atom, FeedType.Atom => true
  | some _, _ => false

/-- Embeds the outline-building loop of `create_opml_file_filtered`
(src/src/lib.rs lines 198-229): skip feeds failing the filter, skip feeds
whose URL was already seen, otherwise emit the outline and record the
URL. The `HashSet` of seen URLs is a list with membership. -/
def buildOutlines (filter : Option FeedType) :
    List RssFeed → List String → List Outline
  | [], _ => []
  | f :: rest, seen =>
    if matchesFilter filter f.feed_type then
      if f.url ∈ seen then buildOutlines filter rest seen
      else mkOutline f :: buildOutlines filter rest (f.url :: seen)
    else buildOutlines filter rest seen

/-- Embeds `create_opml_file_filtered` (src/src/lib.rs lines 180-240) up
to the file write: the document it serializes, as (head title, body
outlines). -/
def create_opml_file_filtered (feeds : List RssFeed)
    (filter : Option FeedType) : String × List Outline :=
  (filterTitle filter, buildOutlines filter feeds [])

/-- Embeds the library's `create_opml_file` (src/src/lib.rs lines
176-178): the unfiltered wrapper. -/
def create_opml_file_lib (feeds : List RssFeed) : String × List Outline :=
  create_opml_file_filtered feeds none

/-- Embeds the CLI binary's own `create_opml_file` (src/src/main.rs lines
207-241) up to the file write: fixed title "RSS Feeds" and one outline
per input feed, with no deduplication and no filter. -/
def create_opml_file_main (feeds : List RssFeed) : String × List Outline :=
  ("RSS Feeds", feeds.map mkOutline)

/-! ## The binary's post-discovery step -/

/-- The outcome of `main` after discovery (src/src/main.rs lines 73-84);
both constructors model `Ok(())`, i.e. non-error termination:
`okNoFile` is the early `return Ok(())` with no file written, `okWrote`
carries the document handed to the write. -/
inductive MainOutcome where
  | okNoFile : MainOutcome
  | okWrote (doc : String × List Outline) : MainOutcome
deriving DecidableEq, Repr

/-- Embeds src/src/main.rs lines 73-84: when the discovered feed list is
empty, terminate without writing; otherwise serialize with the binary's
`create_opml_file` and write the document. -/
def mainWriteStep (feeds : List RssFeed) : MainOutcome :=
  if feeds.isEmpty then MainOutcome.okNoFile
  else MainOutcome.okWrote (create_opml_file_main feeds)

/-! ## URL-list reader -/

/-- Drop a trailing carriage return, as Rust's `str::lines` does per
line. -/
def stripCarriageReturn (l : List Char) : List Char :=
  if l.getLast? = some '\r' then l.dropLast else l

/-- Split a character list at newline characters. -/
def splitAtNewlines : List Char → List (List Char)
  | [] => [[]]
  | c :: rest =>
    if c = '\n' then [] :: splitAtNewlines rest
    else
      match splitAtNewlines rest with
      | [] => [[c]]
      | l :: ls => (c :: l) :: ls

/-- Models Rust's `str::lines`: split at newlines, no empty final line
for a trailing newline (or empty input), trailing carriage returns
stripped. -/
def rustLines (s : String) : List String :=
  let parts := splitAtNewlines s.toList
  let parts := if parts.getLast? = some [] then parts.dropLast else parts
  parts.map (fun l => String.mk (stripCarriageReturn l))

/-- Whitespace trimming over the character list (Rust's `str::trim`,
restricted to the ASCII whitespace the inputs contain). -/
def trimStr (s : String) : String :=
  String.mk (((s.toList.dropWhile Char.isWhitespace).reverse.dropWhile
    Char.isWhitespace).reverse)

/-- The line filter of `read_urls_from_file` (src/src/lib.rs line 31). -/
def keepLine (line : String) : Bool :=
  !line.toList.isEmpty && !isPre "#" line

/-- Embeds `read_urls_from_file` (src/src/lib.rs lines 24-36) on the file
contents (the `fs::read_to_string` IO is dropped): trim each line, keep
the nonempty ones not starting with '#'. -/
def read_urls_from_file (content : String) : List String :=
  ((rustLines content).map trimStr).filter keepLine

/-- The probe of one fallback path: the resolved URL and detected format
when the path resolves and validates. -/
def probeResult (url : String) (validate : String → Option FeedType)
    (p : String) : Option (String × FeedType) :=
  match resolve_url url p with
  | Except.error _ => none
  | Except.ok feed_url =>
    match validate feed_url with
    | some ft => some (feed_url, ft)
    | none => none

/-- The first successful probe, in list order. -/
def firstProbe (url : String) (validate : String → Option FeedType) :
    List String → Option (String × FeedType)
  | [] => none
  | p :: rest =>
    match probeResult url validate p with
    | some r => some r
    | none => firstProbe url validate rest

/-! ## Concrete fixtures used by witnesses and counterexamples -/

/-- A validator oracle that accepts everything as RSS. -/
def c1Validate : String → Option FeedType := fun _ => some FeedType.Rss

/-- A markup candidate whose href ("http://", rejected by the URL parser
for its empty host) fails to resolve. -/
def c1BadLink : LinkElement := { href := some "http://", title := none }

/-- A markup candidate that resolves and validates. -/
def c1GoodLink : LinkElement := { href := some "/ok.xml", title := some "Good" }

/-- An RSS-parser oracle accepting exactly one body. -/
def c3RssOracle : String → Bool := fun s => decide (s = "a rss body")

/-- An Atom-parser oracle accepting exactly one body. -/
def c3AtomOracle : String → Bool := fun s => decide (s = "an atom body")

/-- A validator oracle for the fallback probe: both /rss.xml and
/atom.xml of example.com validate, every other URL does not. -/
def c4Validate : String → Option FeedType := fun s =>
  if s = "https://example.com/rss.xml" then some FeedType.Rss
  else if s = "https://example.com/atom.xml" then some FeedType.Atom
  else none

/-- A sample feed. -/
def c2Feed : RssFeed :=
  { title := "Test Feed 1", url := "https://example.com/feed1.xml",
    html_url := "https://example.com", feed_type := FeedType.Rss }

/-- A feed with the same URL as `c2Feed` but a different title. -/
def c2DupFeed : RssFeed :=
  { title := "Test Feed 1 Duplicate", url := "https://example.com/feed1.xml",
    html_url := "https://example.com", feed_type := FeedType.Rss }

/-- A sample RSS feed for filter tests. -/
def c6RssFeed : RssFeed :=
  { title := "RSS Feed 1", url := "https://example.com/rss1.xml",
    html_url := "https://example.com", feed_type := FeedType.Rss }

/-- A sample Atom feed for filter tests. -/
def c6AtomFeed : RssFeed :=
  { title := "Atom Feed 1", url := "https://example.com/atom1.xml",
    html_url := "https://example.com", feed_type := FeedType.Atom }

/-- A sample feed for the output-gate test. -/
def c7Feed : RssFeed :=
  { title := "Test Feed 1", url := "https://example.com/feed1.xml",
    html_url := "https://example.com", feed_type := FeedType.Rss }

/-! ## Helper lemmas -/

/-- A successful scheme parse implies the scheme prefix is present. -/
theorem trySchemeParse_isSome_pre (sch s : String) (u : ModelUrl)
    (h : trySchemeParse sch s = some u) :
    (sch ++ "://").toList.isPrefixOf s.toList = true := by
  by_cases hp : (sch ++ "://").toList.isPrefixOf s.toList = true
  · exact hp
  · exfalso
    rw [Bool.not_eq_true] at hp
    simp only [trySchemeParse, hp, Bool.false_eq_true, if_false] at h
    exact Option.noConfusion h

/-- A successfully parsed URL starts with "https://" or "http://". -/
theorem parseUrl_isSome_pre (s : String) (u : ModelUrl)
    (h : parseUrl s = some u) :
    (isPre "https://" s || isPre "http://" s) = true := by
  unfold parseUrl at h
  cases hh : trySchemeParse "https" s with
  | some v =>
    have hp := trySchemeParse_isSome_pre "https" s v hh
    have e : ("https" ++ "://" : String) = "https://" := rfl
    rw [e] at hp
    unfold isPre
    rw [hp, Bool.true_or]
  | none =>
    rw [hh] at h
    have h' : trySchemeParse "http" s = some u := h
    have hp := trySchemeParse_isSome_pre "http" s u h'
    have e : ("http" ++ "://" : String) = "http://" := rfl
    rw [e] at hp
    unfold isPre
    rw [hp, Bool.or_true]

/-! ## Claim theorems -/

/-- C8: `resolve("https://example.com", "/feed.xml")` is
"https://example.com/feed.xml" and
`resolve("https://example.com", "https://feed.example.com/rss")` is
"https://feed.example.com/rss"; in general an href that itself parses as
an absolute URL resolves to its own (normalized) serialization,
independent of the base, and a path-absolute href resolves against the
base's scheme and host with the href as path. -/
theorem c8_resolver :
    (resolve_url "https://example.com" "/feed.xml" =
      Except.ok "https://example.com/feed.xml") ∧
    (resolve_url "https://example.com" "https://feed.example.com/rss" =
      Except.ok "https://feed.example.com/rss") ∧
    (∀ base href b h2, parseUrl base = some b → parseUrl href = some h2 →
      resolve_url base href = Except.ok (urlToString h2)) ∧
    (∀ base href b, parseUrl base = some b →
      isPre "https://" href = false → isPre "http://" href = false →
      isPre "//" href = false → isPre "/" href = true →
      resolve_url base href =
        Except.ok (urlToString { b with path := href })) := by
  refine ⟨rfl, rfl, ?_, ?_⟩
  · intro base href b h2 hb hh
    simp [resolve_url, joinUrl, hb, hh, parseUrl_isSome_pre href h2 hh]
  · intro base href b hb h1 h2 h3 h4
    simp [resolve_url, joinUrl, hb, h1, h2, h3, h4]

/-- Witness for C8 at the two inputs of the claim. -/
theorem c8_resolver_witness :
    resolve_url "https://example.com" "https://feed.example.com/rss" =
      Except.ok "https://feed.example.com/rss" ∧
    resolve_url "https://example.com" "/feed.xml" =
      Except.ok "https://example.com/feed.xml" :=
  ⟨c8_resolver.2.2.1 "https://example.com" "https://feed.example.com/rss"
      { scheme := "https", host := "example.com", path := "/" }
      { scheme := "https", host := "feed.example.com", path := "/rss" } rfl rfl,
   c8_resolver.2.2.2 "https://example.com" "/feed.xml"
      { scheme := "https", host := "example.com", path := "/" }
      rfl rfl rfl rfl rfl⟩

/-- C9: the fallback title is the page URL's host when the URL parses
("example.com" for "https://example.com/path") and the literal "Unknown"
when it does not ("not-a-url"); in general, parse failure gives
"Unknown" and parse success gives the host. -/
theorem c9_title_fallback :
    extract_title_from_url "https://example.com/path" = "example.com" ∧
    extract_title_from_url "not-a-url" = "Unknown" ∧
    (∀ u, parseUrl u = none → extract_title_from_url u = "Unknown") ∧
    (∀ u m, parseUrl u = some m → extract_title_from_url u = m.host) := by
  refine ⟨rfl, rfl, ?_, ?_⟩
  · intro u h
    simp [extract_title_from_url, h]
  · intro u m h
    simp [extract_title_from_url, h]

/-- Witness for C9 at concrete URLs. -/
theorem c9_title_fallback_witness :
    extract_title_from_url "ftp://example.com" = "Unknown" ∧
    extract_title_from_url "https://example.com/path" = "example.com" :=
  ⟨c9_title_fallback.2.2.1 "ftp://example.com" rfl,
   c9_title_fallback.2.2.2 "https://example.com/path"
     { scheme := "https", host := "example.com", path := "/path" } rfl⟩

/-- C3: the validator is a total classification: network failure,
non-2xx status, unreadable body, and a body both parsers reject all give
`none` (not-a-feed); a body the RSS parser accepts gives RSS whatever the
Atom parser would say; the Atom parser decides only when the RSS parser
rejects. -/
theorem c3_validator_classification (rssParses atomParses : String → Bool) :
    (validate_rss_feed rssParses atomParses FetchOutcome.netErr = none) ∧
    (∀ body, validate_rss_feed rssParses atomParses
        (FetchOutcome.response false body) = none) ∧
    (validate_rss_feed rssParses atomParses
        (FetchOutcome.response true none) = none) ∧
    (∀ content, rssParses content = true →
      validate_rss_feed rssParses atomParses
        (FetchOutcome.response true (some content)) = some FeedType.Rss) ∧
    (∀ content, rssParses content = false → atomParses content = true →
      validate_rss_feed rssParses atomParses
        (FetchOutcome.response true (some content)) = some FeedType.Atom) ∧
    (∀ content, rssParses content = false → atomParses content = false →
      validate_rss_feed rssParses atomParses
        (FetchOutcome.response true (some content)) = none) := by
  refine ⟨rfl, fun body => rfl, rfl, ?_, ?_, ?_⟩
  · intro content h
    simp [validate_rss_feed, h]
  · intro content h1 h2
    simp [validate_rss_feed, h1, h2]
  · intro content h1 h2
    simp [validate_rss_feed, h1, h2]

/-- Witness for C3 with concrete parser oracles. -/
theorem c3_validator_classification_witness :
    validate_rss_feed c3RssOracle c3AtomOracle
      (FetchOutcome.response true (some "a rss body")) = some FeedType.Rss ∧
    validate_rss_feed c3RssOracle c3AtomOracle
      (FetchOutcome.response true (some "an atom body")) = some FeedType.Atom ∧
    validate_rss_feed c3RssOracle c3AtomOracle
      (FetchOutcome.response true (some "plain html")) = none :=
  ⟨(c3_validator_classification c3RssOracle c3AtomOracle).2.2.2.1
      "a rss body" (by decide),
   (c3_validator_classification c3RssOracle c3AtomOracle).2.2.2.2.1
      "an atom body" (by decide) (by decide),
   (c3_validator_classification c3RssOracle c3AtomOracle).2.2.2.2.2
      "plain html" (by decide) (by decide)⟩

/-- C1 counterexample: with a validator accepting everything, a page
whose markup holds a good candidate followed by a candidate with
unresolvable href "http://" yields an error — the abort discards the
already-validated good candidate — and the same happens with the bad
candidate first; yet the good candidate alone yields its feed, so the
resolve failure does abort discovery and does change the other
candidate's result. -/
theorem c1_resolve_failure_counterexample :
    find_rss_feeds "https://example.com" c1Validate [c1GoodLink, c1BadLink] =
      Except.error () ∧
    find_rss_feeds "https://example.com" c1Validate [c1BadLink, c1GoodLink] =
      Except.error () ∧
    find_rss_feeds "https://example.com" c1Validate [c1GoodLink] =
      Except.ok [{ title := "Good", url := "https://example.com/ok.xml",
                   html_url := "https://example.com",
                   feed_type := FeedType.Rss }] :=
  ⟨rfl, rfl, rfl⟩

/-- Whatever precedes it in the scan — validated candidates included — a
candidate whose href fails to resolve makes the markup loop return an
error: the loop either aborts at this candidate or at an earlier
failing one, never returning feeds. -/
theorem markupFeeds_error_of_failing_href (url : String)
    (validate : String → Option FeedType) :
    ∀ links : List LinkElement,
      (∃ e ∈ links, ∃ h2, e.href = some h2 ∧
        resolve_url url h2 = Except.error ()) →
      markupFeeds url validate links = Except.error () := by
  intro links
  induction links with
  | nil =>
    intro hex
    rcases hex with ⟨e, he, _⟩
    exact absurd he (List.not_mem_nil e)
  | cons e rest ih =>
    intro hex
    rcases hex with ⟨e2, he2, h2, hhref, hres⟩
    rcases List.mem_cons.mp he2 with heq | hmem
    · rw [← heq]
      simp [markupFeeds, hhref, hres]
    · have hrest := ih ⟨e2, hmem, h2, hhref, hres⟩
      cases hh : e.href with
      | none => simp [markupFeeds, hh, hrest]
      | some hr =>
        cases hres2 : resolve_url url hr with
        | error er =>
          cases er
          simp [markupFeeds, hh, hres2]
        | ok fu =>
          cases hv : validate fu with
          | some ft => simp [markupFeeds, hh, hres2, hv, hrest]
          | none => simp [markupFeeds, hh, hres2, hv, hrest]

/-- C1 amended: in the markup scan, a candidate whose href attribute is
absent is skipped and discovery continues; a candidate whose href fails
to resolve, wherever it sits in the candidate list and whatever
validated candidates precede it, aborts the whole page's discovery with
an error (the `?` on `resolve_url`), so the page returns no feeds at
all — already-validated candidates included. -/
theorem c1_amended_markup_behavior (url : String)
    (validate : String → Option FeedType) (t : Option String)
    (rest links : List LinkElement) :
    (markupFeeds url validate ({ href := none, title := t } :: rest) =
      markupFeeds url validate rest) ∧
    ((∃ e ∈ links, ∃ h2, e.href = some h2 ∧
        resolve_url url h2 = Except.error ()) →
      markupFeeds url validate links = Except.error () ∧
      find_rss_feeds url validate links = Except.error ()) := by
  refine ⟨rfl, ?_⟩
  intro hex
  have hm := markupFeeds_error_of_failing_href url validate links hex
  exact ⟨hm, by simp [find_rss_feeds, hm]⟩

/-- Witness for the amended C1: the failing candidate sits behind a
validated one and still voids the whole page. -/
theorem c1_amended_markup_behavior_witness :
    markupFeeds "https://example.com" c1Validate [{ href := none, title := none }] =
      markupFeeds "https://example.com" c1Validate [] ∧
    markupFeeds "https://example.com" c1Validate [c1GoodLink, c1BadLink] =
      Except.error () ∧
    find_rss_feeds "https://example.com" c1Validate [c1GoodLink, c1BadLink] =
      Except.error () :=
  have hex : ∃ e ∈ [c1GoodLink, c1BadLink], ∃ h2,
      e.href = some h2 ∧ resolve_url "https://example.com" h2 = Except.error () :=
    ⟨c1BadLink, List.mem_cons_of_mem c1GoodLink (List.mem_cons_self c1BadLink []),
     "http://", rfl, rfl⟩
  ⟨(c1_amended_markup_behavior "https://example.com" c1Validate none []
      [c1GoodLink, c1BadLink]).1,
   ((c1_amended_markup_behavior "https://example.com" c1Validate none []
      [c1GoodLink, c1BadLink]).2 hex).1,
   ((c1_amended_markup_behavior "https://example.com" c1Validate none []
      [c1GoodLink, c1BadLink]).2 hex).2⟩

/-- The fallback loop emits exactly the feed of the first successful
probe, and nothing when no path probes positive. -/
theorem fallbackFeeds_eq_firstProbe (url : String)
    (validate : String → Option FeedType) (paths : List String) :
    fallbackFeeds url validate paths =
      match firstProbe url validate paths with
      | some r => [mkFallbackFeed url r.1 r.2]
      | none => [] := by
  induction paths with
  | nil => rfl
  | cons p rest ih =>
    cases hr : resolve_url url p with
    | error e =>
      simp [fallbackFeeds, firstProbe, probeResult, hr, ih]
    | ok fu =>
      cases hv : validate fu with
      | none => simp [fallbackFeeds, firstProbe, probeResult, hr, hv, ih]
      | some ft => simp [fallbackFeeds, firstProbe, probeResult, hr, hv]

/-- C4: path probing runs only when the markup scan produced zero feeds
(markup feeds, when nonempty, are returned as-is); the probed paths are
exactly /feed, /rss, /feed.xml, /rss.xml, /atom.xml, /index.xml in that
order; the fallback emits exactly the feed of the first positive probe
and nothing after it, hence at most one feed per page. -/
theorem c4_fallback_policy (url : String)
    (validate : String → Option FeedType) (links : List LinkElement) :
    (∀ feeds, markupFeeds url validate links = Except.ok feeds → feeds ≠ [] →
      find_rss_feeds url validate links = Except.ok feeds) ∧
    (markupFeeds url validate links = Except.ok [] →
      find_rss_feeds url validate links =
        Except.ok (fallbackFeeds url validate common_paths)) ∧
    common_paths =
      ["/feed", "/rss", "/feed.xml", "/rss.xml", "/atom.xml", "/index.xml"] ∧
    (∀ paths, fallbackFeeds url validate paths =
      match firstProbe url validate paths with
      | some r => [mkFallbackFeed url r.1 r.2]
      | none => []) ∧
    (fallbackFeeds url validate common_paths).length ≤ 1 := by
  refine ⟨?_, ?_, rfl, fallbackFeeds_eq_firstProbe url validate, ?_⟩
  · intro feeds hm hne
    have he : feeds.isEmpty = false := by
      cases feeds with
      | nil => exact absurd rfl hne
      | cons a l => rfl
    simp [find_rss_feeds, hm, he]
  · intro hm
    simp [find_rss_feeds, hm]
  · rw [fallbackFeeds_eq_firstProbe]
    cases h : firstProbe url validate common_paths with
    | none => simp
    | some r => simp

/-- Witness for C4: a page with no markup candidates whose site
validates at both /rss.xml and /atom.xml yields exactly the /rss.xml
feed — the earlier positive probe — and nothing from /atom.xml. -/
theorem c4_fallback_policy_witness :
    find_rss_feeds "https://example.com" c4Validate [] =
      Except.ok [{ title := "example.com",
                   url := "https://example.com/rss.xml",
                   html_url := "https://example.com",
                   feed_type := FeedType.Rss }] := by
  have h := (c4_fallback_policy "https://example.com" c4Validate []).2.1 rfl
  rw [h]
  rfl

/-- C5: the orchestrator returns exactly the concatenation, in page
order, of the feed lists of the pages whose discovery succeeded; pages
whose discovery erred or found nothing contribute nothing, and the
verbose flag does not affect the result. -/
theorem c5_orchestrator_concat
    (discover : String → Except Unit (List RssFeed))
    (urls : List String) (verbose : Bool) :
    find_rss_feeds_parallel discover urls verbose =
      (urls.map (fun u =>
        match discover u with
        | Except.ok feeds => feeds
        | Except.error _ => [])).flatten := by
  induction urls with
  | nil => rfl
  | cons u rest ih =>
    unfold find_rss_feeds_parallel at ih ⊢
    cases hd : discover u with
    | error e => simpa [List.filterMap_cons, hd] using ih
    | ok feeds =>
      cases feeds with
      | nil => simpa [List.filterMap_cons, hd] using ih
      | cons f fs => simpa [List.filterMap_cons, hd] using ih

/-- A true filter match against `some f` pins the feed's type to `f`. -/
theorem matchesFilter_some_eq (f ft : FeedType)
    (h : matchesFilter (some f) ft = true) : ft = f := by
  cases f <;> cases ft <;> simp_all [matchesFilter]

/-- Every outline built under an active filter carries that filter's
type string. -/
theorem buildOutlines_otype (f : FeedType) (feeds : List RssFeed) :
    ∀ (seen : List String), ∀ o ∈ buildOutlines (some f) feeds seen,
      o.otype = feedTypeStr f := by
  induction feeds with
  | nil =>
    intro seen o ho
    simp [buildOutlines] at ho
  | cons x rest ih =>
    intro seen o ho
    by_cases hm : matchesFilter (some f) x.feed_type = true
    · simp only [buildOutlines, hm, if_true] at ho
      by_cases hs : x.url ∈ seen
      · rw [if_pos hs] at ho
        exact ih seen o ho
      · rw [if_neg hs] at ho
        rcases List.mem_cons.mp ho with h1 | h2
        · rw [h1]
          show feedTypeStr x.feed_type = feedTypeStr f
          rw [matchesFilter_some_eq f x.feed_type hm]
        · exact ih (x.url :: seen) o h2
    · rw [Bool.not_eq_true] at hm
      simp only [buildOutlines, hm, Bool.false_eq_true, if_false] at ho
      exact ih seen o ho

/-- C6: under an active format filter every serialized outline's type
string is the filter's; the document title is "RSS Feeds" when the
filter is unset or RSS and "Atom Feeds" when it is Atom. -/
theorem c6_filter_and_title (feeds : List RssFeed) (filter : Option FeedType) :
    (∀ f, filter = some f →
      ∀ o ∈ (create_opml_file_filtered feeds filter).2,
        o.otype = feedTypeStr f) ∧
    (create_opml_file_filtered feeds none).1 = "RSS Feeds" ∧
    (create_opml_file_filtered feeds (some FeedType.Rss)).1 = "RSS Feeds" ∧
    (create_opml_file_filtered feeds (some FeedType.Atom)).1 = "Atom Feeds" := by
  refine ⟨?_, rfl, rfl, rfl⟩
  intro f hf o ho
  rw [hf] at ho
  exact buildOutlines_otype f feeds [] o ho

/-- Witness for C6 on a mixed RSS/Atom feed list. -/
theorem c6_filter_and_title_witness :
    (mkOutline c6RssFeed).otype = feedTypeStr FeedType.Rss ∧
    (create_opml_file_filtered [c6RssFeed, c6AtomFeed]
      (some FeedType.Atom)).1 = "Atom Feeds" :=
  ⟨(c6_filter_and_title [c6RssFeed, c6AtomFeed] (some FeedType.Rss)).1
      FeedType.Rss rfl (mkOutline c6RssFeed) (by decide),
   (c6_filter_and_title [c6RssFeed, c6AtomFeed] (some FeedType.Atom)).2.2.2⟩

/-- C7: after discovery the binary writes no file and terminates
normally when the feed list is empty, and hands exactly the serialized
document to the write when it is not. -/
theorem c7_empty_no_write (feeds : List RssFeed) :
    (feeds = [] → mainWriteStep feeds = MainOutcome.okNoFile) ∧
    (feeds ≠ [] →
      mainWriteStep feeds = MainOutcome.okWrote (create_opml_file_main feeds)) := by
  constructor
  · intro h
    rw [h]
    rfl
  · intro h
    have he : feeds.isEmpty = false := by
      cases feeds with
      | nil => exact absurd rfl h
      | cons a l => rfl
    simp [mainWriteStep, he]

/-- Witness for C7 at an empty and a singleton feed list. -/
theorem c7_empty_no_write_witness :
    mainWriteStep [] = MainOutcome.okNoFile ∧
    mainWriteStep [c7Feed] = MainOutcome.okWrote (create_opml_file_main [c7Feed]) :=
  ⟨(c7_empty_no_write []).1 rfl,
   (c7_empty_no_write [c7Feed]).2 (List.cons_ne_nil c7Feed [])⟩

/-- C2: at the failing input — two feeds with the same feedUrl and
different titles — the binary's serializer (src/src/main.rs
`create_opml_file`) emits both outlines, two entries sharing one
`xmlUrl`, while the library serializer the claim describes emits only
the first occurrence. -/
theorem c2_main_serializer_keeps_duplicates :
    (create_opml_file_main [c2Feed, c2DupFeed]).2 =
      [mkOutline c2Feed, mkOutline c2DupFeed] ∧
    (mkOutline c2Feed).xml_url = (mkOutline c2DupFeed).xml_url ∧
    mkOutline c2Feed ≠ mkOutline c2DupFeed ∧
    (create_opml_file_filtered [c2Feed, c2DupFeed] none).2 =
      [mkOutline c2Feed] := by
  refine ⟨rfl, rfl, ?_, ?_⟩
  · decide
  · decide

/-- C10: the URL-list reader returns a subsequence of the trimmed file
lines, keeps exactly the lines that survive the nonempty / non-comment
filter, and on the repository's own test input returns its three
URLs in order. -/
theorem c10_read_urls (content : String) :
    List.Sublist (read_urls_from_file content)
      ((rustLines content).map trimStr) ∧
    (∀ l ∈ read_urls_from_file content, keepLine l = true) ∧
    (∀ l ∈ (rustLines content).map trimStr, keepLine l = true →
      l ∈ read_urls_from_file content) ∧
    read_urls_from_file
        "# Comment line\nhttps://example.com\n\nhttps://test.com\n  https://trimmed.com  \n" =
      ["https://example.com", "https://test.com", "https://trimmed.com"] := by
  refine ⟨List.filter_sublist _, ?_, ?_, rfl⟩
  · intro l hl
    exact (List.mem_filter.mp hl).2
  · intro l hl hk
    exact List.mem_filter.mpr ⟨hl, hk⟩

/-- Witness for C10 at a concrete file body. -/
theorem c10_read_urls_witness :
    "https://example.com" ∈ read_urls_from_file "# c\nhttps://example.com\n" ∧
    read_urls_from_file
        "# Comment line\nhttps://example.com\n\nhttps://test.com\n  https://trimmed.com  \n" =
      ["https://example.com", "https://test.com", "https://trimmed.com"] :=
  ⟨(c10_read_urls "# c\nhttps://example.com\n").2.2.1
      "https://example.com" (by decide) (by decide),
   (c10_read_urls "").2.2.2⟩

end RssMiner
